import Mathlib

/-!
Verification of the Bang & Olufsen Home Assistant integration
(`custom_components/bangolufsen`, plus the `bang_olufsen` event platform).

The Python source is shallowly embedded: entity methods become pure Lean
functions from an explicit entity-state structure to a new state together
with a list of observable effects (vendor-client requests, dispatcher
sends, log lines, local method invocations).  Python exceptions are
modelled with `Except` / `Option`; Python numbers are `Int` / exact decimals with
explicit truncation where the source truncates.
-/

/-! ## Character-list models of the Python string operations used -/

/-- Model of Python `str.split(sep)` for a one-character separator,
working on the character list of the string. -/
def listSplitOnChar (sep : Char) : List Char → List (List Char)
  | [] => [[]]
  | c :: cs =>
    if c = sep then [] :: listSplitOnChar sep cs
    else
      match listSplitOnChar sep cs with
      | [] => [[c]]
      | r :: rs => (c :: r) :: rs

/-- Model of Python `str.endswith(suffix)`. -/
def pyEndsWith (s suffix : String) : Bool :=
  suffix.data.isSuffixOf s.data

/-- Model of Python `str.replace(pat, repl)` (all non-overlapping
occurrences, left to right) on character lists. -/
def listReplace (pat repl : List Char) (l : List Char) : List Char :=
  match l with
  | [] => []
  | c :: cs =>
    if h : pat ≠ [] ∧ pat.isPrefixOf (c :: cs) then
      repl ++ listReplace pat repl ((c :: cs).drop pat.length)
    else
      c :: listReplace pat repl cs
termination_by l.length
decreasing_by
  · simp only [List.length_drop, List.length_cons]
    have hp : 0 < pat.length := List.length_pos.mpr h.1
    omega
  · simp

/-- Model of Python `str.replace(pat, repl)`. -/
def pyReplace (s pat repl : String) : String :=
  String.mk (listReplace pat.data repl.data s.data)

/-- Whether `pat` occurs as a contiguous sublist. -/
def listIsInfixOf (pat : List Char) : List Char → Bool
  | [] => pat.isEmpty
  | c :: cs => pat.isPrefixOf (c :: cs) || listIsInfixOf pat cs

/-- Model of Python `sub in s` (substring containment). -/
def pyContainsSub (s sub : String) : Bool :=
  listIsInfixOf sub.data s.data

/-- Python exception kinds raised by the embedded code. -/
inductive PyErr where
  | typeError
  | valueError
  | indexError
  | keyError
  | attributeError
  deriving DecidableEq, Repr

/-- An exact decimal `mantissa / 10 ^ exponent`, kept canonical (no
trailing zero digits in the fraction); the embedding's model of the
non-negative decimal floats the integration feeds to Python `float`. -/
structure PyFloat where
  mantissa : Nat
  exponent : Nat
  deriving DecidableEq, Repr

/-- Strip trailing fractional zero digits to canonicalize a decimal. -/
def canonPyFloat : Nat → Nat → PyFloat
  | m, 0 => ⟨m, 0⟩
  | m, e + 1 => if m % 10 = 0 then canonPyFloat (m / 10) e else ⟨m, e + 1⟩

/-- Python runtime values that flow through the Beolink command relay:
`None`, `str`, `float` (modelled as an exact decimal) and `bool`. -/
inductive PyVal where
  | none
  | str (s : String)
  | float (f : PyFloat)
  | bool (b : Bool)
  deriving DecidableEq, Repr

/-- Numeric value of a list of decimal digit characters. -/
def decimalDigitsVal (l : List Char) : Nat :=
  l.foldl (fun acc c => acc * 10 + (c.toNat - 48)) 0

/-- Whether a character list is a non-empty run of decimal digits. -/
def isDigitList (l : List Char) : Bool :=
  !l.isEmpty && l.all Char.isDigit

/-- Model of Python `float(string)` on the plain decimal fragment
`digits` or `digits.digits` (the only shapes the integration feeds it);
any other string is modelled as a `ValueError`. -/
def pyFloatParse (s : String) : Option PyFloat :=
  match listSplitOnChar '.' s.data with
  | [w] =>
    if isDigitList w then some (canonPyFloat (decimalDigitsVal w) 0) else Option.none
  | [w, f] =>
    if isDigitList w && isDigitList f then
      some (canonPyFloat (decimalDigitsVal w * 10 ^ f.length + decimalDigitsVal f)
        f.length)
    else Option.none
  | _ => Option.none

/-- Model of Python `int(volume * 100)` for a non-negative decimal volume:
truncation toward zero of `volume * 100`. -/
def pyFloatTimes100TruncInt (f : PyFloat) : Nat :=
  f.mantissa * 100 / 10 ^ f.exponent

/-! ## Constants from `const.py` -/

def BEOLINK_LEADER_COMMAND : String := "BEOLINK_LEADER_COMMAND"

def BEOLINK_LISTENER_COMMAND : String := "BEOLINK_LISTENER_COMMAND"

def BEOLINK_VOLUME : String := "BEOLINK_VOLUME"

def BANGOLUFSEN_ON : String := "on"

/-- An f-string dispatcher channel `f"{ident}_{tag}"`. -/
def dispatcherSignal (ident tag : String) : String := ident ++ "_" ++ tag

/-- `VALID_MEDIA_TYPES` from `const.py`: the Bang & Olufsen specific media
types followed by the host `MediaType` values music, url and channel. -/
def VALID_MEDIA_TYPES : List String :=
  ["favourite", "deezer", "radio", "provider", "music", "url", "channel"]

/-- `PLAYING` from `const.py`. -/
def PLAYING : List String := ["started", "buffering", BANGOLUFSEN_ON]

/-- `NOT_PLAYING` from `const.py`. -/
def NOT_PLAYING : List String :=
  ["idle", "paused", "stopped", "ended", "unknown", "error"]

/-- `HIDDEN_SOURCE_IDS` from `const.py`. -/
def HIDDEN_SOURCE_IDS : List String :=
  ["airPlay", "bluetooth", "chromeCast", "generator", "local", "dlna",
   "qplay", "wpl", "pl", "beolink", "classicsAdapter", "usbIn"]

/-- `StateEnum` from `const.py`, as the partial name-to-value map realised
by `StateEnum[name]`; `Option.none` models the `KeyError` raised for a
name that is not a member. -/
def StateEnum : String → Option String
  | "started" => some "playing"
  | "buffering" => some "playing"
  | "idle" => some "idle"
  | "paused" => some "paused"
  | "stopped" => some "paused"
  | "ended" => some "paused"
  | "error" => some "idle"
  | "unknown" => some "idle"
  | "networkStandby" => some "idle"
  | _ => Option.none

/-- `ArtSizeEnum` from `const.py`, again as the `ArtSizeEnum[name]` lookup. -/
def ArtSizeEnum : String → Option Nat
  | "small" => some 1
  | "medium" => some 2
  | "large" => some 3
  | _ => Option.none

/-! ## Data model -/

/-- The slice of `mozart_api.models.Art` the integration reads. -/
structure Art where
  key : Option String := Option.none
  size : Option String := Option.none
  url : Option String := Option.none
  deriving DecidableEq, Repr

/-- The slice of `mozart_api.models.Source` the integration reads. -/
structure Source where
  id : String
  is_enabled : Bool
  is_playable : Bool
  name : String
  deriving DecidableEq, Repr

/-- `FALLBACK_SOURCES` from `const.py`. -/
def FALLBACK_SOURCES : List Source :=
  [⟨"uriStreamer", true, false, "Audio Streamer"⟩,
   ⟨"bluetooth", true, false, "Bluetooth"⟩,
   ⟨"spotify", true, false, "Spotify Connect"⟩,
   ⟨"lineIn", true, true, "Line-In"⟩,
   ⟨"spdif", true, true, "Optical"⟩,
   ⟨"netRadio", true, true, "B&O Radio"⟩,
   ⟨"deezer", true, true, "Deezer"⟩,
   ⟨"tidalConnect", true, true, "Tidal Connect"⟩]

/-- Observable effects of an embedded entity method: vendor-client
requests, dispatcher sends, local media-player method invocations and log
lines. -/
inductive Effect where
  | setCurrentVolumeLevel (level : Int)
  | setActiveSource (sourceId : String)
  | postUriSource (uri : String)
  | activatePreset (presetId : String)
  | startDeezerFlow (userId : Option String)
  | addToQueue (itemType : String) (uri : String) (startFrom : Nat)
  | dispatch (channel : String) (command : String) (parameter : PyVal)
  | dispatchVolume (channel : String) (volumeLevel : String)
  | localCall (method : String) (arg : Option PyVal)
  | logError
  | logWarning
  deriving DecidableEq, Repr

deriving instance DecidableEq for Except

/-- The fields of `BangOlufsenMediaPlayer` (and the `BangOlufsenVariables`
mixin) that the embedded methods read or write. -/
structure MPState where
  source_list : List String
  source_list_friendly : List String
  volume_level : Int
  volume_muted : Bool
  volume_step : Int
  max_volume : Int
  state_val : String
  media_image : Art
  remote_leader : Option String
  beolink_listeners : List String
  deriving DecidableEq, Repr

/-! ## `media_player.py`: volume stepping -/

/-- `BangOlufsenMediaPlayer.async_volume_up`: request
`min(self._volume.level.level + self._volume_step, self._max_volume)`. -/
def async_volume_up (st : MPState) : MPState × List Effect :=
  (st, [Effect.setCurrentVolumeLevel (min (st.volume_level + st.volume_step) st.max_volume)])

/-- `BangOlufsenMediaPlayer.async_volume_down`: request
`max(self._volume.level.level - self._volume_step, 0)`. -/
def async_volume_down (st : MPState) : MPState × List Effect :=
  (st, [Effect.setCurrentVolumeLevel (max (st.volume_level - st.volume_step) 0)])

/-- `BangOlufsenMediaPlayer.state` property: `StateEnum[self._state]`. -/
def state_property (st : MPState) : Option String :=
  StateEnum st.state_val

/-! ## `media_player.py`: source selection and media playback -/

/-- `BangOlufsenMediaPlayer.async_select_source`: look up the friendly
name, then request `set_active_source` with the source id at the same
index; an unknown friendly name only logs an error. -/
def async_select_source (st : MPState) (source : String) :
    Except PyErr (MPState × List Effect) :=
  if source ∈ st.source_list_friendly then
    match st.source_list.get? (st.source_list_friendly.indexOf source) with
    | some sourceId => Except.ok (st, [Effect.setActiveSource sourceId])
    | Option.none => Except.error PyErr.indexError
  else Except.ok (st, [Effect.logError])

/-- `BangOlufsenMediaPlayer.async_play_media`.  The host helpers are
parameters: `is_media_source_id` is the verdict of
`media_source.is_media_source_id(media_id)` and `resolved_url` the URL the
host resolves the media-source id to; `extra_id` / `extra_start_from` are
the optional entries of `kwargs[ATTR_MEDIA_EXTRA]`. -/
def async_play_media (st : MPState) (media_type media_id : String)
    (is_media_source_id : Bool) (resolved_url : String)
    (extra_id : Option String) (extra_start_from : Option Nat) :
    MPState × List Effect :=
  let mt := if is_media_source_id then "url" else media_type
  let mid :=
    if is_media_source_id then
      (if pyEndsWith resolved_url ".m3u" then pyReplace resolved_url ".m3u" ""
       else resolved_url)
    else media_id
  if mt ∉ VALID_MEDIA_TYPES then (st, [Effect.logError])
  else if mt = "url" then (st, [Effect.postUriSource mid])
  else if mt = "favourite" then (st, [Effect.activatePreset mid])
  else if mt = "deezer" then
    if mid = "flow" then (st, [Effect.startDeezerFlow extra_id])
    else if pyContainsSub mid "playlist" || pyContainsSub mid "album" then
      (st, [Effect.addToQueue "playlist" mid (extra_start_from.getD 0)])
    else (st, [Effect.addToQueue "track" mid 0])
  else (st, [])

/-! ## `media_player.py`: source-list initialization (`bangolufsen_init`) -/

/-- The source-list part of `BangOlufsenMediaPlayer.bangolufsen_init`:
`get_available_sources` is consulted once; a `ValueError` response is
logged as a warning and replaced by `FALLBACK_SOURCES`; enabled sources
whose id is not hidden are kept, ids and friendly names in parallel. -/
def bangolufsen_init_sources (result : Except Unit (List Source)) :
    List Effect × List String × List String :=
  let log : List Effect :=
    match result with
    | Except.ok _ => []
    | Except.error _ => [Effect.logWarning]
  let sources : List Source :=
    match result with
    | Except.ok s => s
    | Except.error _ => FALLBACK_SOURCES
  let kept := sources.filter fun s => s.is_enabled && !(HIDDEN_SOURCE_IDS.contains s.id)
  (log, kept.map Source.id, kept.map Source.name)

/-! ## `config_flow.py` -/

/-- The three exception types caught around the vendor requests in the
config and options flows. -/
inductive FlowErr where
  | apiException
  | clientConnectorError
  | timeoutError
  deriving DecidableEq, Repr

/-- The abort-reason dictionary both flow steps index with `type(error)`. -/
def flow_abort_reason : FlowErr → String
  | FlowErr.apiException => "api_exception"
  | FlowErr.clientConnectorError => "client_connector_error"
  | FlowErr.timeoutError => "timeout_error"

/-- Host `FlowResult` outcomes the embedded steps can produce. -/
inductive FlowResult where
  | abort (reason : String)
  | showForm (step : String)
  | nextStep (step : String)
  | createEntry
  deriving DecidableEq, Repr

/-- `_request_timeout` passed to `get_beolink_self` in `async_step_user`. -/
def GET_BEOLINK_SELF_REQUEST_TIMEOUT : Nat := 3

/-- The slice of `mozart_api.models.BeolinkPeer` the flow reads. -/
structure BeolinkPeer where
  jid : String
  friendly_name : String
  deriving DecidableEq, Repr

/-- `BangOlufsenConfigFlowHandler.async_step_user`.  `user_input` carries
host and model when submitted; `ip_valid` is the verdict of
`ipaddress.ip_address`; `response` is the outcome of
`get_beolink_self(_request_timeout=3)`; `already_configured` is the
verdict of `_abort_if_unique_id_configured`. -/
def async_step_user (user_input : Option (String × String)) (ip_valid : Bool)
    (response : Except FlowErr BeolinkPeer) (already_configured : Bool) :
    FlowResult :=
  match user_input with
  | Option.none => FlowResult.showForm "user"
  | some _ =>
    if ip_valid then
      match response with
      | Except.error e => FlowResult.abort (flow_abort_reason e)
      | Except.ok _ =>
        if already_configured then FlowResult.abort "already_configured"
        else FlowResult.nextStep "confirm"
    else FlowResult.abort "value_error"

/-- `BangOlufsenOptionsFlowHandler.async_step_init`; `response` is the
outcome of `get_volume_settings(_request_timeout=3)`. -/
def options_step_init (user_input : Option Unit)
    (response : Except FlowErr Unit) : FlowResult :=
  match user_input with
  | some _ => FlowResult.createEntry
  | Option.none =>
    match response with
    | Except.error e => FlowResult.abort (flow_abort_reason e)
    | Except.ok _ => FlowResult.showForm "init"

/-! ## `event.py` setup -/

/-- `SupportEnum.PROXIMITY_SENSOR` from `const.py`: the models with a
proximity sensor, as their `ModelEnum` friendly-name values. -/
def PROXIMITY_SENSOR_MODELS : List String :=
  ["BeoLab 28", "Beosound 2 3rd Gen", "Beosound Balance", "Beosound Level",
   "Beosound Theatre"]

/-- `COMPATIBLE_MODELS` from `const.py`: every `ModelEnum` value. -/
def COMPATIBLE_MODELS : List String :=
  ["BeoLab 28", "Beosound 2 3rd Gen", "Beosound A5", "Beosound A9 5th Gen",
   "Beosound Balance", "Beosound Emerge", "Beosound Level", "Beosound Theatre"]

/-- The kinds of event entity `event.py` can create. -/
inductive EventEntity where
  | buttonEvent (buttonType : String)
  | proximityEvent
  | remoteKeyEvent (keyType : String)
  deriving DecidableEq, Repr

/-- `event.py async_setup_entry`: button event entities for every device
button, a proximity event entity exactly when the entry's model supports
the proximity sensor, and Beoremote One key entities when a paired remote
is present.  The device-button and remote-key name lists are parameters
(their constants live outside the embedded slice). -/
def event_async_setup_entry (model : String) (deviceButtons : List String)
    (hasRemote : Bool) (remoteKeys : List String) : List EventEntity :=
  deviceButtons.map EventEntity.buttonEvent ++
  (if model ∈ PROXIMITY_SENSOR_MODELS then [EventEntity.proximityEvent] else []) ++
  (if hasRemote then remoteKeys.map EventEntity.remoteKeyEvent else [])

/-! ## Beolink leader/listener command relay -/

/-- The three parameter type constructors occurring in the command lists. -/
inductive ParamType where
  | float
  | bool
  | str
  deriving DecidableEq, Repr

/-- One of the `*_PARAMETERS` tuples from `const.py`: command names
followed by the expected parameter type (`Option.none` models the Python
`None` entry of `NONE_PARAMETERS`). -/
structure CommandList where
  commands : List String
  paramType : Option ParamType
  deriving DecidableEq, Repr

/-- `FLOAT_PARAMETERS` from `const.py`. -/
def FLOAT_PARAMETERS : CommandList :=
  ⟨["set_volume_level", "media_seek"], some ParamType.float⟩

/-- `BOOL_PARAMETERS` from `const.py`. -/
def BOOL_PARAMETERS : CommandList := ⟨["mute_volume"], some ParamType.bool⟩

/-- `STR_PARAMETERS` from `const.py`. -/
def STR_PARAMETERS : CommandList := ⟨["select_source"], some ParamType.str⟩

/-- `NONE_PARAMETERS` from `const.py`. -/
def NONE_PARAMETERS : CommandList :=
  ⟨["volume_up", "volume_down", "media_play_pause", "media_pause", "media_play",
    "media_stop", "media_next_track", "media_previous_track", "toggle"],
   Option.none⟩

/-- `ACCEPTED_COMMANDS_LISTS` from `const.py`. -/
def ACCEPTED_COMMANDS_LISTS : List CommandList :=
  [FLOAT_PARAMETERS, BOOL_PARAMETERS, STR_PARAMETERS, NONE_PARAMETERS]

/-- `ACCEPTED_COMMANDS` from `const.py`: the concatenated command names
(each tuple without its trailing type element). -/
def ACCEPTED_COMMANDS : List String :=
  ACCEPTED_COMMANDS_LISTS.foldr (fun cl acc => cl.commands ++ acc) []

/-- Python `parameter_type(parameter)` for `parameter : str | None`:
`float(None)` raises `TypeError`, `float` of a non-numeric string raises
`ValueError`, `bool(None)` is `False`, `bool(s)` is `s != ""`,
`str(None)` is `"None"`. -/
def ParamTypeApply (pt : ParamType) (p : Option String) : Except PyErr PyVal :=
  match pt, p with
  | ParamType.float, Option.none => Except.error PyErr.typeError
  | ParamType.float, some s =>
    match pyFloatParse s with
    | some q => Except.ok (PyVal.float q)
    | Option.none => Except.error PyErr.valueError
  | ParamType.bool, Option.none => Except.ok (PyVal.bool false)
  | ParamType.bool, some s => Except.ok (PyVal.bool (s != ""))
  | ParamType.str, Option.none => Except.ok (PyVal.str "None")
  | ParamType.str, some s => Except.ok (PyVal.str s)

/-- The loop body of
`BangOlufsenMediaPlayer.async_beolink_leader_command`: for each command
list containing the command, convert the parameter (logging and returning
on an invalid parameter), then either forward the command once on the
remote leader's `BEOLINK_LEADER_COMMAND` channel (listener device) or run
the local `async_{command}` method (leader device), and continue with the
remaining lists. -/
def beolink_leader_loop (remote_leader : Option String) (command : String)
    (parameter : Option String) : List CommandList → List Effect
  | [] => []
  | cl :: rest =>
    if command ∈ cl.commands then
      match cl.paramType with
      | some pt =>
        match ParamTypeApply pt parameter with
        | Except.error _ => [Effect.logError]
        | Except.ok v =>
          (match remote_leader with
           | some jid =>
             [Effect.dispatch (dispatcherSignal jid BEOLINK_LEADER_COMMAND) command v]
           | Option.none => [Effect.localCall ("async_" ++ command) (some v)]) ++
          beolink_leader_loop remote_leader command parameter rest
      | Option.none =>
        match parameter with
        | some _ => [Effect.logError]
        | Option.none =>
          (match remote_leader with
           | some jid =>
             [Effect.dispatch (dispatcherSignal jid BEOLINK_LEADER_COMMAND) command
               PyVal.none]
           | Option.none => [Effect.localCall ("async_" ++ command) Option.none]) ++
          beolink_leader_loop remote_leader command parameter rest
    else beolink_leader_loop remote_leader command parameter rest

/-- `BangOlufsenMediaPlayer.async_beolink_leader_command`, with the
device's `self._remote_leader` JID as first argument. -/
def async_beolink_leader_command (remote_leader : Option String)
    (command : String) (parameter : Option String) : List Effect :=
  beolink_leader_loop remote_leader command parameter ACCEPTED_COMMANDS_LISTS

/-- The loop body of
`BangOlufsenMediaPlayer.async_beolink_listener_command`: run the command
locally on the listener; the parameter conversion here is unguarded, so a
conversion failure (or applying the `None` type entry to a present
parameter) raises. -/
def beolink_listener_loop (command : String) (parameter : Option String) :
    List CommandList → Except PyErr (List Effect)
  | [] => Except.ok []
  | cl :: rest =>
    if command ∈ cl.commands then
      match parameter with
      | some s =>
        match cl.paramType with
        | some pt =>
          match ParamTypeApply pt (some s) with
          | Except.error e => Except.error e
          | Except.ok v =>
            match beolink_listener_loop command parameter rest with
            | Except.error e => Except.error e
            | Except.ok es =>
              Except.ok (Effect.localCall ("async_" ++ command) (some v) :: es)
        | Option.none => Except.error PyErr.typeError
      | Option.none =>
        match cl.paramType with
        | some _ => beolink_listener_loop command parameter rest
        | Option.none =>
          match beolink_listener_loop command parameter rest with
          | Except.error e => Except.error e
          | Except.ok es =>
            Except.ok (Effect.localCall ("async_" ++ command) Option.none :: es)
    else beolink_listener_loop command parameter rest

/-- `BangOlufsenMediaPlayer.async_beolink_listener_command`. -/
def async_beolink_listener_command (command : String)
    (parameter : Option String) : Except PyErr (List Effect) :=
  beolink_listener_loop command parameter ACCEPTED_COMMANDS_LISTS

/-- `BangOlufsenMediaPlayer.async_beolink_set_volume`: a listener forwards
the volume string once on the leader's `BEOLINK_VOLUME` channel; a leader
sets its own volume via `async_set_volume_level(float(volume_level))`
(a `set_current_volume_level` request at `int(volume * 100)`) and then
dispatches a `set_volume_level` listener command to every Beolink
listener JID. -/
def async_beolink_set_volume (st : MPState) (volume_level : String) :
    Except PyErr (List Effect) :=
  match st.remote_leader with
  | some jid =>
    Except.ok [Effect.dispatchVolume (dispatcherSignal jid BEOLINK_VOLUME) volume_level]
  | Option.none =>
    match pyFloatParse volume_level with
    | Option.none => Except.error PyErr.valueError
    | some q =>
      Except.ok (Effect.setCurrentVolumeLevel (pyFloatTimes100TruncInt q : Int) ::
        st.beolink_listeners.map fun jid =>
          Effect.dispatch (dispatcherSignal jid BEOLINK_LISTENER_COMMAND)
            "set_volume_level" (PyVal.str volume_level))

/-- Whether a relayed parameter (as the optional string of the service
call) is of the declared type of a command list. -/
def validParamB : Option ParamType → Option String → Bool
  | some ParamType.float, some s => (pyFloatParse s).isSome
  | some ParamType.bool, some _ => true
  | some ParamType.str, some _ => true
  | Option.none, Option.none => true
  | _, _ => false

/-- The converted parameter value a listener forwards to its leader. -/
def sentParam : Option ParamType → Option String → PyVal
  | some ParamType.float, some s => PyVal.float ((pyFloatParse s).getD ⟨0, 0⟩)
  | some ParamType.bool, some s => PyVal.bool (s != "")
  | some ParamType.str, some s => PyVal.str s
  | _, _ => PyVal.none

/-- The argument a leader passes to its local `async_{command}` method. -/
def localParam : Option ParamType → Option String → Option PyVal
  | Option.none, _ => Option.none
  | some pt, p => some (sentParam (some pt) p)

/-- Number of dispatcher sends to a given channel in an effect list. -/
def countDispatchTo (effects : List Effect) (chan : String) : Nat :=
  effects.countP fun e =>
    match e with
    | Effect.dispatch c _ _ => c == chan
    | _ => false

/-- Number of local `set_current_volume_level` requests in an effect list. -/
def countLocalVolumeSets (effects : List Effect) : Nat :=
  effects.countP fun e =>
    match e with
    | Effect.setCurrentVolumeLevel _ => true
    | _ => false

/-! ## Beolink JIDs: construction and serial-number extraction -/

/-- `async_step_zeroconf` JID construction:
`f"{tn}.{in}.{sn}@products.bang-olufsen.com"` from the zeroconf type
number, item number and serial number properties. -/
def zeroconf_beolink_jid (type_number item_number serial_number : String) :
    String :=
  type_number ++ "." ++ item_number ++ "." ++ serial_number ++
    "@products.bang-olufsen.com"

/-- The serial-number extraction `jid.split(".")[2].split("@")[0]`;
`Option.none` models the `IndexError` when the JID has fewer than three
dot-separated parts. -/
def jid_serial_number (jid : String) : Option String :=
  match (listSplitOnChar '.' jid.data).get? 2 with
  | some part => ((listSplitOnChar '@' part).get? 0).map String.mk
  | Option.none => Option.none

/-- The extraction `async_step_user` applies to `beolink_self.jid`. -/
def user_step_serial_number (jid : String) : Option String :=
  jid_serial_number jid

/-- The extraction `BangOlufsenMediaPlayer._get_entity_id_from_jid`
applies to a device-reported JID to obtain the unique id. -/
def entity_unique_id_from_jid (jid : String) : Option String :=
  jid_serial_number jid

/-! ## `media_player.py`: artwork selection -/

/-- `int(image.key.split("x")[0])`: the width of a "WxH" resolution key;
`Option.none` models the `ValueError` of a non-numeric width. -/
def artKeyWidth (key : String) : Option Nat :=
  match listSplitOnChar 'x' key.data with
  | w :: _ => if isDigitList w then some (decimalDigitsVal w) else Option.none
  | [] => Option.none

/-- The per-image value appended to `images` in the `_update_artwork`
loop.  The branch is selected by the FIRST art entry (`metadata.art[0]`);
`Option.none` models the exception raised when the inspected field of
`img` is missing (`None.split` / `ArtSizeEnum[None]`) or unparsable. -/
def artImageValue (first img : Art) : Option Nat :=
  if first.key.isSome then
    match img.key with
    | some k => artKeyWidth k
    | Option.none => Option.none
  else if first.size.isSome then
    match img.size with
    | some sz => ArtSizeEnum sz
    | Option.none => Option.none
  else Option.none

/-- Python `max(list)`: `Option.none` models the `ValueError` on an empty
list. -/
def pyMaxList : List Nat → Option Nat
  | [] => Option.none
  | x :: xs => some (xs.foldl max x)

/-- `BangOlufsenMediaPlayer._update_artwork`: from
`self._playback_metadata.art` (`Option.none` when the attribute is not a
list) compute the new `self._media_image`.  The result `Option.none`
models an exception escaping the method, in which case the previously
stored image stays in place; `some {}` is the reset to an empty `Art`. -/
def update_artwork (art : Option (List Art)) : Option Art :=
  match art with
  | some (a0 :: rest) =>
    let vals := (a0 :: rest).map (artImageValue a0)
    if vals.all Option.isSome then
      let images := vals.map fun v => v.getD 0
      match pyMaxList images with
      | some m => (a0 :: rest).get? (images.indexOf m)
      | Option.none => Option.none
    else Option.none
  | _ => some {}

/-! # Theorems -/

theorem listSplitOnChar_ne_nil (sep : Char) (l : List Char) :
    listSplitOnChar sep l ≠ [] := by
  induction l with
  | nil => simp [listSplitOnChar]
  | cons c cs ih =>
    by_cases h : c = sep
    · simp [listSplitOnChar, h]
    · simp only [listSplitOnChar, if_neg h]
      cases hs : listSplitOnChar sep cs with
      | nil => simp
      | cons r rs => simp

theorem listSplitOnChar_of_not_mem (sep : Char) (t : List Char) (h : sep ∉ t) :
    listSplitOnChar sep t = [t] := by
  induction t with
  | nil => rfl
  | cons c cs ih =>
    rw [List.mem_cons, not_or] at h
    have hc : c ≠ sep := fun hcs => h.1 (hcs ▸ rfl)
    simp only [listSplitOnChar, if_neg hc, ih h.2]

theorem listSplitOnChar_append (sep : Char) (t rest : List Char) (h : sep ∉ t) :
    listSplitOnChar sep (t ++ sep :: rest) = t :: listSplitOnChar sep rest := by
  induction t with
  | nil => simp [listSplitOnChar]
  | cons c cs ih =>
    rw [List.mem_cons, not_or] at h
    have hc : c ≠ sep := fun hcs => h.1 (hcs ▸ rfl)
    rw [List.cons_append]
    simp only [listSplitOnChar, if_neg hc, ih h.2]

/-! ## Claim C8 -/

/-- Claim C8: for every current volume level `v` in `0..100`, configured
volume step `s` and maximum `m`, `async_volume_up` requests device level
`min(v + s, m)`, which never exceeds `m`, and `async_volume_down` requests
`max(v - s, 0)`, which is never negative; neither operation changes any
field of the entity state. -/
theorem C8_volume_step_bounds (st : MPState)
    (hv0 : 0 ≤ st.volume_level) (hv1 : st.volume_level ≤ 100) :
    async_volume_up st =
      (st, [Effect.setCurrentVolumeLevel (min (st.volume_level + st.volume_step) st.max_volume)]) ∧
    min (st.volume_level + st.volume_step) st.max_volume ≤ st.max_volume ∧
    async_volume_down st =
      (st, [Effect.setCurrentVolumeLevel (max (st.volume_level - st.volume_step) 0)]) ∧
    0 ≤ max (st.volume_level - st.volume_step) 0 ∧
    (async_volume_up st).1 = st ∧ (async_volume_down st).1 = st := by
  refine ⟨rfl, min_le_right _ _, rfl, le_max_right _ _, rfl, rfl⟩

/-- Claim C8 witness at a concrete state: volume 95, step 10, maximum 100. -/
theorem C8_volume_step_bounds_witness :
    async_volume_up ⟨[], [], 95, false, 10, 100, "idle", {}, Option.none, []⟩ =
      (⟨[], [], 95, false, 10, 100, "idle", {}, Option.none, []⟩,
       [Effect.setCurrentVolumeLevel 100]) ∧
    async_volume_down ⟨[], [], 95, false, 10, 100, "idle", {}, Option.none, []⟩ =
      (⟨[], [], 95, false, 10, 100, "idle", {}, Option.none, []⟩,
       [Effect.setCurrentVolumeLevel 85]) := by
  have h := C8_volume_step_bounds ⟨[], [], 95, false, 10, 100, "idle", {}, Option.none, []⟩
    (by decide) (by decide)
  exact ⟨h.1, h.2.2.1⟩

/-! ## Claim C4 -/

/-- Claim C4 (counterexample): the power state `"on"` is classified as
playing by the `PLAYING` tuple, but `StateEnum` has no member named
`"on"`, so the `state` property raises `KeyError` (modelled as
`Option.none`) instead of returning a host state for it. -/
theorem C4_state_on_counterexample :
    "on" ∈ PLAYING ∧ StateEnum "on" = Option.none ∧
    state_property ⟨[], [], 0, false, 5, 100, "on", {}, Option.none, []⟩ = Option.none := by
  decide

/-- Claim C4 (amended): the `state` property returns `StateEnum[self._state]`,
which maps started and buffering to playing; paused, stopped and ended to
paused; idle, unknown and error to idle; and also networkStandby to idle.
The mapping is total over these nine member names but not over the power
state `"on"` (which only the `PLAYING` tuple classifies as playing): on
`"on"` the lookup raises `KeyError`. -/
theorem C4_state_mapping :
    (StateEnum "started" = some "playing" ∧ StateEnum "buffering" = some "playing" ∧
     StateEnum "paused" = some "paused" ∧ StateEnum "stopped" = some "paused" ∧
     StateEnum "ended" = some "paused" ∧ StateEnum "idle" = some "idle" ∧
     StateEnum "unknown" = some "idle" ∧ StateEnum "error" = some "idle" ∧
     StateEnum "networkStandby" = some "idle" ∧
     "on" ∈ PLAYING ∧ StateEnum BANGOLUFSEN_ON = Option.none) ∧
    ∀ st : MPState, state_property st = StateEnum st.state_val :=
  ⟨by decide, fun _ => rfl⟩

/-! ## Claim C3 -/

/-- Claim C3 (amended): an unknown friendly source name makes
`async_select_source` log an error, issue no `set_active_source` request
and leave the entity state unchanged; a media type outside
`VALID_MEDIA_TYPES` makes `async_play_media` log an error and issue no
vendor play request, provided the media id is not a media-source
identifier (a media-source id overrides the media type to URL before
validation), again leaving the state unchanged. -/
theorem C3_invalid_commands :
    (∀ (st : MPState) (source : String), source ∉ st.source_list_friendly →
      async_select_source st source = Except.ok (st, [Effect.logError])) ∧
    (∀ (st : MPState) (media_type media_id resolved_url : String)
      (extra_id : Option String) (extra_start_from : Option Nat),
      media_type ∉ VALID_MEDIA_TYPES →
      async_play_media st media_type media_id false resolved_url extra_id extra_start_from =
        (st, [Effect.logError])) := by
  constructor
  · intro st source h
    simp [async_select_source, h]
  · intro st media_type media_id resolved_url extra_id extra_start_from h
    simp [async_play_media, h]

/-- Claim C3 witness: at a concrete one-source state, selecting the
unknown source "Bogus" and playing the invalid media type "bogus" both
just log. -/
theorem C3_invalid_commands_witness :
    async_select_source ⟨["lineIn"], ["Line-In"], 0, false, 5, 100, "idle", {}, Option.none, []⟩
        "Bogus" =
      Except.ok (⟨["lineIn"], ["Line-In"], 0, false, 5, 100, "idle", {}, Option.none, []⟩,
        [Effect.logError]) ∧
    async_play_media ⟨["lineIn"], ["Line-In"], 0, false, 5, 100, "idle", {}, Option.none, []⟩
        "bogus" "x" false "" Option.none Option.none =
      (⟨["lineIn"], ["Line-In"], 0, false, 5, 100, "idle", {}, Option.none, []⟩,
        [Effect.logError]) :=
  ⟨C3_invalid_commands.1 _ "Bogus" (by decide),
   C3_invalid_commands.2 _ "bogus" "x" "" Option.none Option.none (by decide)⟩

/-- Claim C3 (counterexample): when the media id is a media-source
identifier, `async_play_media` replaces the media type with URL before
validating, so an invalid media type is neither logged nor rejected and a
`post_uri_source` vendor request is issued. -/
theorem C3_media_source_counterexample :
    "bogus" ∉ VALID_MEDIA_TYPES ∧
    async_play_media ⟨[], [], 0, false, 5, 100, "idle", {}, Option.none, []⟩ "bogus"
        "media-source://media_source/local/x.mp3" true "http://host/file.mp3"
        Option.none Option.none =
      (⟨[], [], 0, false, 5, 100, "idle", {}, Option.none, []⟩,
       [Effect.postUriSource "http://host/file.mp3"]) :=
  ⟨by decide, by decide⟩

/-! ## Claim C5 -/

/-- Claim C5 (counterexample): a failing `get_available_sources` during
initialization is not merely logged — the hard-coded `FALLBACK_SOURCES`
are substituted and yield non-empty source lists, which is partial-failure
recovery beyond logging. -/
theorem C5_fallback_recovery_counterexample :
    bangolufsen_init_sources (Except.error ()) =
      ([Effect.logWarning],
       ["uriStreamer", "spotify", "lineIn", "spdif", "netRadio", "deezer",
        "tidalConnect"],
       ["Audio Streamer", "Spotify Connect", "Line-In", "Optical", "B&O Radio",
        "Deezer", "Tidal Connect"]) ∧
    bangolufsen_init_sources (Except.error ()) ≠ ([Effect.logWarning], [], []) := by
  exact ⟨by decide, by decide⟩

/-- Claim C5 (amended): there is no retry — the response of
`get_available_sources` is consulted once — but a `ValueError` failure
during initialization is recovered from beyond logging: a warning is
logged and the filtered `FALLBACK_SOURCES` are substituted for the device
source list, while a successful response is used as-is with no fallback
contribution. -/
theorem C5_no_retry_with_fallback :
    bangolufsen_init_sources (Except.error ()) =
      ([Effect.logWarning],
       (FALLBACK_SOURCES.filter fun s =>
         s.is_enabled && !(HIDDEN_SOURCE_IDS.contains s.id)).map Source.id,
       (FALLBACK_SOURCES.filter fun s =>
         s.is_enabled && !(HIDDEN_SOURCE_IDS.contains s.id)).map Source.name) ∧
    ∀ sources : List Source,
      bangolufsen_init_sources (Except.ok sources) =
        ([],
         (sources.filter fun s =>
           s.is_enabled && !(HIDDEN_SOURCE_IDS.contains s.id)).map Source.id,
         (sources.filter fun s =>
           s.is_enabled && !(HIDDEN_SOURCE_IDS.contains s.id)).map Source.name) :=
  ⟨rfl, fun _ => rfl⟩

/-! ## Claim C2 -/

/-- Claim C2: with a submitted form and a valid IP, the user config-flow
step aborts with reason api_exception, client_connector_error or
timeout_error exactly when `get_beolink_self` (called with a 3-second
request timeout) raises the corresponding exception, and likewise the
options-flow init step for `get_volume_settings`; a successful response
never aborts for these reasons. -/
theorem C2_config_flow_abort_reasons :
    (∀ (inp : String × String) (response : Except FlowErr BeolinkPeer)
       (already : Bool) (r : String),
      r ∈ ["api_exception", "client_connector_error", "timeout_error"] →
      (async_step_user (some inp) true response already = FlowResult.abort r ↔
        ∃ e, response = Except.error e ∧ flow_abort_reason e = r)) ∧
    (∀ (response : Except FlowErr Unit) (r : String),
      r ∈ ["api_exception", "client_connector_error", "timeout_error"] →
      (options_step_init Option.none response = FlowResult.abort r ↔
        ∃ e, response = Except.error e ∧ flow_abort_reason e = r)) ∧
    GET_BEOLINK_SELF_REQUEST_TIMEOUT = 3 := by
  refine ⟨fun inp response already r hr => ?_, fun response r hr => ?_, rfl⟩
  · cases response with
    | error e =>
      simp only [async_step_user, if_pos trivial, if_true]
      constructor
      · intro h
        exact ⟨e, rfl, by injection h⟩
      · rintro ⟨e', he', hre⟩
        injection he' with he'
        subst he'
        exact congrArg FlowResult.abort hre
    | ok peer =>
      cases already with
      | false =>
        simp [async_step_user]
      | true =>
        simp only [async_step_user, if_true]
        constructor
        · intro h
          injection h with h
          subst h
          simp at hr
        · rintro ⟨e', he', -⟩
          exact absurd he' (by simp)
  · cases response with
    | error e =>
      simp only [options_step_init]
      constructor
      · intro h
        exact ⟨e, rfl, by injection h⟩
      · rintro ⟨e', he', hre⟩
        injection he' with he'
        subst he'
        exact congrArg FlowResult.abort hre
    | ok u =>
      simp [options_step_init]

/-- Claim C2 witness: an `ApiException` from `get_beolink_self` aborts the
user step with reason api_exception, and a successful `get_volume_settings`
response does not abort the options step with reason timeout_error. -/
theorem C2_config_flow_abort_reasons_witness :
    async_step_user (some ("192.168.1.1", "Beosound Balance")) true
        (Except.error FlowErr.apiException) false = FlowResult.abort "api_exception" ∧
    ¬ options_step_init Option.none (Except.ok ()) = FlowResult.abort "timeout_error" := by
  constructor
  · exact (C2_config_flow_abort_reasons.1 ("192.168.1.1", "Beosound Balance")
      (Except.error FlowErr.apiException) false "api_exception" (by decide)).mpr
      ⟨FlowErr.apiException, rfl, rfl⟩
  · intro h
    obtain ⟨e, he, -⟩ := (C2_config_flow_abort_reasons.2.1 (Except.ok ())
      "timeout_error" (by decide)).mp h
    exact absurd he (by simp)

/-! ## Claim C7 -/

/-- Claim C7: during event-platform setup a proximity event entity is
added if and only if the config entry's model is one of the five
proximity-supporting models (BeoLab 28, Beosound 2 3rd Gen, Beosound
Balance, Beosound Level, Beosound Theatre); every other compatible model
gets no proximity entity. -/
theorem C7_proximity_entity_iff_supported :
    (∀ (model : String) (deviceButtons : List String) (hasRemote : Bool)
       (remoteKeys : List String),
      EventEntity.proximityEvent ∈
          event_async_setup_entry model deviceButtons hasRemote remoteKeys ↔
        model ∈ PROXIMITY_SENSOR_MODELS) ∧
    PROXIMITY_SENSOR_MODELS =
      ["BeoLab 28", "Beosound 2 3rd Gen", "Beosound Balance", "Beosound Level",
       "Beosound Theatre"] ∧
    (∀ model ∈ COMPATIBLE_MODELS, model ∉ PROXIMITY_SENSOR_MODELS →
      ∀ (deviceButtons : List String) (hasRemote : Bool) (remoteKeys : List String),
        EventEntity.proximityEvent ∉
          event_async_setup_entry model deviceButtons hasRemote remoteKeys) := by
  have hmain : ∀ (model : String) (deviceButtons : List String) (hasRemote : Bool)
      (remoteKeys : List String),
      EventEntity.proximityEvent ∈
          event_async_setup_entry model deviceButtons hasRemote remoteKeys ↔
        model ∈ PROXIMITY_SENSOR_MODELS := by
    intro model deviceButtons hasRemote remoteKeys
    by_cases hm : model ∈ PROXIMITY_SENSOR_MODELS
    · simp [event_async_setup_entry, hm]
    · cases hasRemote <;> simp [event_async_setup_entry, hm]
  exact ⟨hmain, rfl, fun model _ hnot deviceButtons hasRemote remoteKeys hmem =>
    hnot ((hmain model deviceButtons hasRemote remoteKeys).mp hmem)⟩

/-- Claim C7 witness: Beosound Balance gets a proximity event entity;
the compatible model Beosound A5 does not. -/
theorem C7_proximity_entity_iff_supported_witness :
    EventEntity.proximityEvent ∈
      event_async_setup_entry "Beosound Balance" ["PlayPause"] false [] ∧
    EventEntity.proximityEvent ∉
      event_async_setup_entry "Beosound A5" ["PlayPause"] false [] := by
  constructor
  · exact (C7_proximity_entity_iff_supported.1 "Beosound Balance" ["PlayPause"]
      false []).mpr (by decide)
  · exact C7_proximity_entity_iff_supported.2.2 "Beosound A5" (by decide)
      (by decide) ["PlayPause"] false []

/-! ## Claim C1 -/

theorem mem_ACCEPTED_COMMANDS (c : String) :
    c ∈ ACCEPTED_COMMANDS ↔
      c ∈ FLOAT_PARAMETERS.commands ∨ c ∈ BOOL_PARAMETERS.commands ∨
      c ∈ STR_PARAMETERS.commands ∨ c ∈ NONE_PARAMETERS.commands := by
  simp [ACCEPTED_COMMANDS, ACCEPTED_COMMANDS_LISTS, FLOAT_PARAMETERS,
    BOOL_PARAMETERS, STR_PARAMETERS, NONE_PARAMETERS]
  tauto

theorem dispatcherSignal_inj (tag : String) {a b : String}
    (h : dispatcherSignal a tag = dispatcherSignal b tag) : a = b := by
  have hd : a.data ++ ("_".data ++ tag.data) = b.data ++ ("_".data ++ tag.data) := by
    have hdata := congrArg String.data h
    simpa [dispatcherSignal, List.append_assoc] using hdata
  exact String.ext (List.append_left_injective _ hd)

/-- Claim C1: for every command in an accepted command list, with a
parameter of the declared type when one is required, a device with a
remote leader forwards the command exactly once on the leader's
`BEOLINK_LEADER_COMMAND` dispatcher channel and runs nothing locally,
while a device without a remote leader runs the corresponding local
`async_{command}` media-player method; a command outside
`ACCEPTED_COMMANDS` is ignored by both `async_beolink_leader_command` and
`async_beolink_listener_command`. -/
theorem C1_beolink_relay :
    (∀ cl ∈ ACCEPTED_COMMANDS_LISTS, ∀ c ∈ cl.commands, ∀ p : Option String,
      validParamB cl.paramType p = true →
      (∀ jid : String,
        async_beolink_leader_command (some jid) c p =
          [Effect.dispatch (dispatcherSignal jid BEOLINK_LEADER_COMMAND) c
            (sentParam cl.paramType p)]) ∧
      async_beolink_leader_command Option.none c p =
        [Effect.localCall ("async_" ++ c) (localParam cl.paramType p)]) ∧
    (∀ c : String, c ∉ ACCEPTED_COMMANDS →
      ∀ (p : Option String) (rl : Option String),
        async_beolink_leader_command rl c p = [] ∧
        async_beolink_listener_command c p = Except.ok []) := by
  constructor
  · intro cl hcl c hc p hp
    simp only [ACCEPTED_COMMANDS_LISTS, List.mem_cons, List.not_mem_nil,
      or_false] at hcl
    rcases hcl with rfl | rfl | rfl | rfl
    · simp only [FLOAT_PARAMETERS, List.mem_cons, List.not_mem_nil, or_false] at hc
      cases p with
      | none => simp [validParamB, FLOAT_PARAMETERS] at hp
      | some s =>
        simp only [validParamB, FLOAT_PARAMETERS] at hp
        obtain ⟨q, hq⟩ := Option.isSome_iff_exists.mp hp
        rcases hc with rfl | rfl <;>
          exact ⟨fun jid => by
            simp [async_beolink_leader_command, beolink_leader_loop,
              ACCEPTED_COMMANDS_LISTS, FLOAT_PARAMETERS, BOOL_PARAMETERS,
              STR_PARAMETERS, NONE_PARAMETERS, ParamTypeApply, hq, sentParam],
            by simp [async_beolink_leader_command, beolink_leader_loop,
              ACCEPTED_COMMANDS_LISTS, FLOAT_PARAMETERS, BOOL_PARAMETERS,
              STR_PARAMETERS, NONE_PARAMETERS, ParamTypeApply, hq, sentParam,
              localParam]⟩
    · simp only [BOOL_PARAMETERS, List.mem_cons, List.not_mem_nil, or_false] at hc
      cases p with
      | none => simp [validParamB, BOOL_PARAMETERS] at hp
      | some s =>
        subst hc
        exact ⟨fun jid => by
          simp [async_beolink_leader_command, beolink_leader_loop,
            ACCEPTED_COMMANDS_LISTS, FLOAT_PARAMETERS, BOOL_PARAMETERS,
            STR_PARAMETERS, NONE_PARAMETERS, ParamTypeApply, sentParam],
          by simp [async_beolink_leader_command, beolink_leader_loop,
            ACCEPTED_COMMANDS_LISTS, FLOAT_PARAMETERS, BOOL_PARAMETERS,
            STR_PARAMETERS, NONE_PARAMETERS, ParamTypeApply, sentParam, localParam]⟩
    · simp only [STR_PARAMETERS, List.mem_cons, List.not_mem_nil, or_false] at hc
      cases p with
      | none => simp [validParamB, STR_PARAMETERS] at hp
      | some s =>
        subst hc
        exact ⟨fun jid => by
          simp [async_beolink_leader_command, beolink_leader_loop,
            ACCEPTED_COMMANDS_LISTS, FLOAT_PARAMETERS, BOOL_PARAMETERS,
            STR_PARAMETERS, NONE_PARAMETERS, ParamTypeApply, sentParam],
          by simp [async_beolink_leader_command, beolink_leader_loop,
            ACCEPTED_COMMANDS_LISTS, FLOAT_PARAMETERS, BOOL_PARAMETERS,
            STR_PARAMETERS, NONE_PARAMETERS, ParamTypeApply, sentParam, localParam]⟩
    · simp only [NONE_PARAMETERS, List.mem_cons, List.not_mem_nil, or_false] at hc
      cases p with
      | some s => simp [validParamB, NONE_PARAMETERS] at hp
      | none =>
        rcases hc with rfl | rfl | rfl | rfl | rfl | rfl | rfl | rfl | rfl <;>
          exact ⟨fun jid => by
            simp [async_beolink_leader_command, beolink_leader_loop,
              ACCEPTED_COMMANDS_LISTS, FLOAT_PARAMETERS, BOOL_PARAMETERS,
              STR_PARAMETERS, NONE_PARAMETERS, ParamTypeApply, sentParam],
            by simp [async_beolink_leader_command, beolink_leader_loop,
              ACCEPTED_COMMANDS_LISTS, FLOAT_PARAMETERS, BOOL_PARAMETERS,
              STR_PARAMETERS, NONE_PARAMETERS, ParamTypeApply, sentParam,
              localParam]⟩
  · intro c hcnot p rl
    rw [mem_ACCEPTED_COMMANDS] at hcnot
    push_neg at hcnot
    obtain ⟨h1, h2, h3, h4⟩ := hcnot
    constructor
    · simp [async_beolink_leader_command, beolink_leader_loop,
        ACCEPTED_COMMANDS_LISTS, h1, h2, h3, h4]
    · simp [async_beolink_listener_command, beolink_listener_loop,
        ACCEPTED_COMMANDS_LISTS, h1, h2, h3, h4]

/-- Claim C1 witness: a listener forwards `set_volume_level 0.5` once to
its leader's channel; a leader runs `async_volume_up` locally; the
command "bogus" is ignored by both methods. -/
theorem C1_beolink_relay_witness :
    async_beolink_leader_command
        (some "1111.1111111.11111111@products.bang-olufsen.com")
        "set_volume_level" (some "0.5") =
      [Effect.dispatch
        "1111.1111111.11111111@products.bang-olufsen.com_BEOLINK_LEADER_COMMAND"
        "set_volume_level" (PyVal.float ⟨5, 1⟩)] ∧
    async_beolink_leader_command Option.none "volume_up" Option.none =
      [Effect.localCall "async_volume_up" Option.none] ∧
    async_beolink_leader_command (some "j") "bogus" Option.none = [] ∧
    async_beolink_listener_command "bogus" Option.none = Except.ok [] := by
  have hf := C1_beolink_relay.1 FLOAT_PARAMETERS (by decide) "set_volume_level"
    (by decide) (some "0.5") (by decide)
  have hn := C1_beolink_relay.1 NONE_PARAMETERS (by decide) "volume_up"
    (by decide) Option.none (by decide)
  have hb := C1_beolink_relay.2 "bogus" (by decide) Option.none (some "j")
  exact ⟨(hf.1 "1111.1111111.11111111@products.bang-olufsen.com").trans (by decide),
    hn.2.trans (by decide), hb.1, hb.2⟩

/-! ## Claim C6 -/

/-- Claim C6: on a device with a remote leader, `async_beolink_set_volume`
dispatches the volume exactly once on the leader's `BEOLINK_VOLUME`
channel and does not set the local volume; on a device with no remote
leader it sets the local volume once and dispatches a `set_volume_level`
listener command exactly once to each JID in the Beolink listeners list,
with no duplicate delivery to any listener. -/
theorem C6_beolink_set_volume_delivery (st : MPState) (volume_level : String)
    (q : PyFloat) (hq : pyFloatParse volume_level = some q)
    (hnd : st.beolink_listeners.Nodup) :
    (∀ jid, st.remote_leader = some jid →
      async_beolink_set_volume st volume_level =
        Except.ok [Effect.dispatchVolume (dispatcherSignal jid BEOLINK_VOLUME)
          volume_level]) ∧
    (st.remote_leader = Option.none →
      async_beolink_set_volume st volume_level =
        Except.ok (Effect.setCurrentVolumeLevel (pyFloatTimes100TruncInt q : Int) ::
          st.beolink_listeners.map fun jid =>
            Effect.dispatch (dispatcherSignal jid BEOLINK_LISTENER_COMMAND)
              "set_volume_level" (PyVal.str volume_level)) ∧
      ∀ es, async_beolink_set_volume st volume_level = Except.ok es →
        countLocalVolumeSets es = 1 ∧
        (∀ jid ∈ st.beolink_listeners,
          countDispatchTo es (dispatcherSignal jid BEOLINK_LISTENER_COMMAND) = 1) ∧
        ∀ jid, jid ∉ st.beolink_listeners →
          countDispatchTo es (dispatcherSignal jid BEOLINK_LISTENER_COMMAND) = 0) := by
  constructor
  · intro jid hrl
    simp [async_beolink_set_volume, hrl]
  · intro hrl
    have heq : async_beolink_set_volume st volume_level =
        Except.ok (Effect.setCurrentVolumeLevel (pyFloatTimes100TruncInt q : Int) ::
          st.beolink_listeners.map fun jid =>
            Effect.dispatch (dispatcherSignal jid BEOLINK_LISTENER_COMMAND)
              "set_volume_level" (PyVal.str volume_level)) := by
      simp [async_beolink_set_volume, hrl, hq]
    refine ⟨heq, fun es hes => ?_⟩
    rw [heq] at hes
    injection hes with hes
    subst hes
    refine ⟨?_, fun jid hjid => ?_, fun jid hjid => ?_⟩
    · simp [countLocalVolumeSets, List.countP_cons, List.countP_map,
        List.countP_eq_zero, Function.comp]
    · have hpt : ∀ j ∈ st.beolink_listeners,
          ((dispatcherSignal j BEOLINK_LISTENER_COMMAND ==
            dispatcherSignal jid BEOLINK_LISTENER_COMMAND) : Bool) = (j == jid) := by
        intro j _
        by_cases hjj : j = jid
        · subst hjj; simp
        · have hne : dispatcherSignal j BEOLINK_LISTENER_COMMAND ≠
              dispatcherSignal jid BEOLINK_LISTENER_COMMAND :=
            fun hcon => hjj (dispatcherSignal_inj _ hcon)
          simp [hjj, hne]
      rw [countDispatchTo]
      rw [List.countP_cons]
      simp only [List.countP_map]
      have hcnt : List.countP
          ((fun e => match e with
            | Effect.dispatch c _ _ => c == dispatcherSignal jid BEOLINK_LISTENER_COMMAND
            | _ => false) ∘ fun j =>
              Effect.dispatch (dispatcherSignal j BEOLINK_LISTENER_COMMAND)
                "set_volume_level" (PyVal.str volume_level))
          st.beolink_listeners =
          List.countP (fun j => j == jid) st.beolink_listeners := by
        apply List.countP_congr
        intro j hj
        simp only [Function.comp]
        rw [hpt j hj]
      rw [hcnt]
      have : List.countP (fun j => j == jid) st.beolink_listeners =
          List.count jid st.beolink_listeners := rfl
      rw [this, List.count_eq_one_of_mem hnd hjid]
      rfl
    · have hpt : ∀ j ∈ st.beolink_listeners,
          ((dispatcherSignal j BEOLINK_LISTENER_COMMAND ==
            dispatcherSignal jid BEOLINK_LISTENER_COMMAND) : Bool) = false := by
        intro j hj
        have hjj : j ≠ jid := fun hcon => hjid (hcon ▸ hj)
        have hne : dispatcherSignal j BEOLINK_LISTENER_COMMAND ≠
            dispatcherSignal jid BEOLINK_LISTENER_COMMAND :=
          fun hcon => hjj (dispatcherSignal_inj _ hcon)
        simp [hne]
      rw [countDispatchTo]
      rw [List.countP_cons]
      simp only [List.countP_map]
      have hz : List.countP
          ((fun e => match e with
            | Effect.dispatch c _ _ => c == dispatcherSignal jid BEOLINK_LISTENER_COMMAND
            | _ => false) ∘ fun j =>
              Effect.dispatch (dispatcherSignal j BEOLINK_LISTENER_COMMAND)
                "set_volume_level" (PyVal.str volume_level))
          st.beolink_listeners = 0 := by
        rw [List.countP_eq_zero]
        intro j hj
        simp only [Function.comp]
        rw [hpt j hj]
        simp
      rw [hz]
      rfl

/-- Claim C6 witness: a leader with two listeners sets its own volume to
50 once and dispatches one `set_volume_level` command to each listener
channel. -/
theorem C6_beolink_set_volume_delivery_witness :
    async_beolink_set_volume
        ⟨[], [], 0, false, 5, 100, "idle", {}, Option.none,
         ["1111.1111111.11111111@products.bang-olufsen.com",
          "2222.2222222.22222222@products.bang-olufsen.com"]⟩ "0.5" =
      Except.ok [Effect.setCurrentVolumeLevel 50,
        Effect.dispatch
          "1111.1111111.11111111@products.bang-olufsen.com_BEOLINK_LISTENER_COMMAND"
          "set_volume_level" (PyVal.str "0.5"),
        Effect.dispatch
          "2222.2222222.22222222@products.bang-olufsen.com_BEOLINK_LISTENER_COMMAND"
          "set_volume_level" (PyVal.str "0.5")] := by
  have h := (C6_beolink_set_volume_delivery
    ⟨[], [], 0, false, 5, 100, "idle", {}, Option.none,
     ["1111.1111111.11111111@products.bang-olufsen.com",
      "2222.2222222.22222222@products.bang-olufsen.com"]⟩ "0.5" ⟨5, 1⟩
    (by decide) (by decide)).2 rfl
  exact h.1.trans (by decide)

/-! ## Claim C9 -/

/-- Claim C9: for every type number, item number and serial number with no
"." in the first two and neither "." nor "@" in the third, extracting the
serial number (split on "." at index 2, then split on "@" at index 0) from
the JID the zeroconf step constructs returns exactly the serial number;
the user step and the media player apply the same extraction. -/
theorem C9_jid_serial_roundtrip (tn itemNumber sn : String)
    (ht : ('.' : Char) ∉ tn.data) (hi : ('.' : Char) ∉ itemNumber.data)
    (hs1 : ('.' : Char) ∉ sn.data) (hs2 : ('@' : Char) ∉ sn.data) :
    jid_serial_number (zeroconf_beolink_jid tn itemNumber sn) = some sn ∧
    (∀ jid, user_step_serial_number jid = jid_serial_number jid) ∧
    (∀ jid, entity_unique_id_from_jid jid = jid_serial_number jid) := by
  refine ⟨?_, fun _ => rfl, fun _ => rfl⟩
  have hdot : ("." : String).data = ['.'] := rfl
  have hprod : ("@products.bang-olufsen.com" : String).data =
      '@' :: ("products".data ++
        ('.' :: ("bang-olufsen".data ++ ('.' :: "com".data)))) := by decide
  have hjid : (zeroconf_beolink_jid tn itemNumber sn).data =
      tn.data ++ ('.' :: (itemNumber.data ++ ('.' ::
        ((sn.data ++ ('@' :: "products".data)) ++ ('.' ::
          ("bang-olufsen".data ++ ('.' :: "com".data))))))) := by
    simp [zeroconf_beolink_jid, hdot, hprod, List.append_assoc]
  have hnodot : ('.' : Char) ∉ sn.data ++ ('@' :: "products".data) := by
    intro hmem
    rcases List.mem_append.mp hmem with h | h
    · exact hs1 h
    · revert h; decide
  have hsplit : listSplitOnChar '.' (zeroconf_beolink_jid tn itemNumber sn).data =
      tn.data :: itemNumber.data :: (sn.data ++ ('@' :: "products".data)) ::
        listSplitOnChar '.' ("bang-olufsen".data ++ ('.' :: "com".data)) := by
    rw [hjid, listSplitOnChar_append '.' tn.data _ ht,
      listSplitOnChar_append '.' itemNumber.data _ hi,
      listSplitOnChar_append '.' _ _ hnodot]
  have hat : listSplitOnChar '@' (sn.data ++ ('@' :: "products".data)) =
      sn.data :: listSplitOnChar '@' "products".data :=
    listSplitOnChar_append '@' sn.data _ hs2
  simp only [jid_serial_number, hsplit, List.get?_cons_succ, List.get?_cons_zero,
    hat, Option.map_some']

/-- Claim C9 witness: the JID built from type number 1111, item number
1111111 and serial number 11111111 round-trips to the serial number. -/
theorem C9_jid_serial_roundtrip_witness :
    jid_serial_number (zeroconf_beolink_jid "1111" "1111111" "11111111") =
      some "11111111" :=
  (C9_jid_serial_roundtrip "1111" "1111111" "11111111" (by decide) (by decide)
    (by decide) (by decide)).1

/-! ## Claim C10 -/

theorem foldl_max_spec (x : Nat) (xs : List Nat) :
    (xs.foldl max x = x ∨ xs.foldl max x ∈ xs) ∧ x ≤ xs.foldl max x ∧
      ∀ y ∈ xs, y ≤ xs.foldl max x := by
  induction xs generalizing x with
  | nil => exact ⟨Or.inl rfl, Nat.le_refl x, by simp⟩
  | cons y ys ih =>
    obtain ⟨hmem, hle, hall⟩ := ih (max x y)
    refine ⟨?_, ?_, ?_⟩
    · rcases hmem with h | h
      · rw [List.foldl_cons, h]
        rcases Nat.le_total x y with hxy | hxy
        · right
          rw [max_eq_right hxy]
          exact List.mem_cons_self _ _
        · left
          rw [max_eq_left hxy]
      · right
        rw [List.foldl_cons]
        exact List.mem_cons_of_mem _ h
    · rw [List.foldl_cons]
      exact le_trans (le_max_left x y) hle
    · intro z hz
      rw [List.foldl_cons]
      rcases List.mem_cons.mp hz with rfl | hz'
      · exact le_trans (le_max_right x z) hle
      · exact hall z hz'

theorem pyMaxList_spec {l : List Nat} {m : Nat} (h : pyMaxList l = some m) :
    m ∈ l ∧ ∀ y ∈ l, y ≤ m := by
  cases l with
  | nil => simp [pyMaxList] at h
  | cons x xs =>
    rw [pyMaxList] at h
    injection h with h
    subst h
    obtain ⟨hmem, hle, hall⟩ := foldl_max_spec x xs
    constructor
    · rcases hmem with h | h
      · rw [h]
        exact List.mem_cons_self _ _
      · exact List.mem_cons_of_mem _ h
    · intro y hy
      rcases List.mem_cons.mp hy with rfl | hy'
      · exact hle
      · exact hall y hy'

/-- Claim C10 (counterexample): a non-empty art list in which each entry
carries a resolution key or a size — but mixed, the first keyed and the
second sized — makes `_update_artwork` raise (the loop reads `.key` of
every image because `art[0].key` is set), so no maximal element is stored
and the previous image is left in place. -/
theorem C10_mixed_art_counterexample :
    (∀ a ∈ [(⟨some "100x100", Option.none, Option.none⟩ : Art),
        ⟨Option.none, some "small", Option.none⟩],
      a.key.isSome = true ∨ a.size.isSome = true) ∧
    update_artwork (some [⟨some "100x100", Option.none, Option.none⟩,
      ⟨Option.none, some "small", Option.none⟩]) = Option.none := by
  exact ⟨by decide, by decide⟩

/-- Claim C10 (amended): after `_update_artwork`, if the playback metadata
has a non-empty art list whose entries are uniform with the first entry
(all valued by its branch: width of the "WxH" key when the first entry is
keyed, else the size rank), the stored image is an element of the list of
maximal value; with no art the stored image is reset to an empty `Art`
object. -/
theorem C10_artwork_selection (a0 : Art) (rest : List Art)
    (hall : ∀ a ∈ a0 :: rest, (artImageValue a0 a).isSome = true) :
    (∃ img, update_artwork (some (a0 :: rest)) = some img ∧ img ∈ a0 :: rest ∧
      ∀ a ∈ a0 :: rest,
        (artImageValue a0 a).getD 0 ≤ (artImageValue a0 img).getD 0) ∧
    update_artwork Option.none = some {} ∧ update_artwork (some []) = some {} := by
  refine ⟨?_, rfl, rfl⟩
  set images : List Nat :=
    ((a0 :: rest).map (artImageValue a0)).map (fun v => v.getD 0) with himg
  have hcomp : images = (a0 :: rest).map fun a => (artImageValue a0 a).getD 0 := by
    rw [himg, List.map_map]
    rfl
  have hallb : ((a0 :: rest).map (artImageValue a0)).all Option.isSome = true := by
    rw [List.all_eq_true]
    intro v hv
    obtain ⟨a, ha, rfl⟩ := List.mem_map.mp hv
    exact hall a ha
  obtain ⟨m, hm⟩ : ∃ m, pyMaxList images = some m := ⟨_, rfl⟩
  obtain ⟨hmmem, hmmax⟩ := pyMaxList_spec hm
  have hupd : update_artwork (some (a0 :: rest)) =
      (a0 :: rest).get? (images.indexOf m) := by
    show (if ((a0 :: rest).map (artImageValue a0)).all Option.isSome = true then
        match pyMaxList images with
        | some mm => (a0 :: rest).get? (images.indexOf mm)
        | Option.none => Option.none
      else Option.none) = (a0 :: rest).get? (images.indexOf m)
    rw [if_pos hallb, hm]
  have hidxA : images.indexOf m < (a0 :: rest).length := by
    have hlen : images.length = (a0 :: rest).length := by simp [hcomp]
    rw [← hlen]
    exact List.indexOf_lt_length.mpr hmmem
  obtain ⟨img, himgget⟩ : ∃ img, (a0 :: rest).get? (images.indexOf m) = some img :=
    ⟨_, List.get?_eq_get hidxA⟩
  have hvm : (artImageValue a0 img).getD 0 = m := by
    have h1 : images.get? (images.indexOf m) = some m := List.indexOf_get? hmmem
    rw [hcomp] at h1 himgget
    rw [List.get?_map, himgget, Option.map_some'] at h1
    injection h1 with h1
  refine ⟨img, by rw [hupd]; exact himgget, List.get?_mem himgget, ?_⟩
  intro a ha
  rw [hvm]
  exact hmmax _ (by rw [hcomp]; exact List.mem_map_of_mem _ ha)

/-- Claim C10 witness: of two keyed images with widths 64 and 500, the
stored image is one of the two and its width is maximal. -/
theorem C10_artwork_selection_witness :
    ∃ img, update_artwork (some [⟨some "64x64", Option.none, Option.none⟩,
        ⟨some "500x500", Option.none, Option.none⟩]) = some img ∧
      img ∈ [(⟨some "64x64", Option.none, Option.none⟩ : Art),
        ⟨some "500x500", Option.none, Option.none⟩] ∧
      ∀ a ∈ [(⟨some "64x64", Option.none, Option.none⟩ : Art),
        ⟨some "500x500", Option.none, Option.none⟩],
        (artImageValue ⟨some "64x64", Option.none, Option.none⟩ a).getD 0 ≤
          (artImageValue ⟨some "64x64", Option.none, Option.none⟩ img).getD 0 :=
  (C10_artwork_selection ⟨some "64x64", Option.none, Option.none⟩
    [⟨some "500x500", Option.none, Option.none⟩] (by decide)).1
